import Mathlib

/-!
Shallow embedding of the observable core of `bot.py` (the Artovix Telegram
assistant), together with theorems settling the testable properties of its
specification.  Python strings are modelled as `List Char`, machine state
(files on disk, external HTTP calls, the inference gateway) is made explicit
through environment records and call logs, and every fallible external call
is an oracle value of an inductive outcome type.
-/

namespace Artovix

/-! ### Python string primitives

Faithful models of the Python string operations used by the bot:
`str.strip()`, `str.split()`, `str.lower()`, substring membership (`in`)
and non-overlapping substring counting (`str.count`). -/

/-- Python default whitespace set for `str.strip` / `str.split`:
space, tab, newline, carriage return, vertical tab, form feed. -/
def isPySpace (c : Char) : Bool :=
  c = ' ' || c = '\t' || c = '\n' || c = '\r' || c = Char.ofNat 11 || c = Char.ofNat 12

/-- Python `s.strip()`: remove leading and trailing whitespace. -/
def pyStrip (l : List Char) : List Char :=
  ((l.dropWhile isPySpace).reverse.dropWhile isPySpace).reverse

/-- Helper for `pySplit`, accumulating the current word (reversed). -/
def pySplitAux : List Char → List Char → List (List Char)
  | [], acc => if acc.isEmpty then [] else [acc.reverse]
  | c :: rest, acc =>
      if isPySpace c then
        if acc.isEmpty then pySplitAux rest [] else acc.reverse :: pySplitAux rest []
      else pySplitAux rest (c :: acc)

/-- Python `s.split()` with no argument: split on runs of whitespace,
producing no empty words. -/
def pySplit (l : List Char) : List (List Char) :=
  pySplitAux l []

/-- Does `needle` occur at the head of `hay`? -/
def leadsWith : List Char → List Char → Bool
  | [], _ => true
  | _ :: _, [] => false
  | a :: as, b :: bs => a = b && leadsWith as bs

/-- Python `needle in hay` for strings. -/
def containsSeq (needle : List Char) : List Char → Bool
  | [] => needle.isEmpty
  | c :: t => leadsWith needle (c :: t) || containsSeq needle t

/-- ASCII lowering of one character, as Python `str.lower` acts on ASCII. -/
def lowerChar (c : Char) : Char :=
  if 'A' ≤ c ∧ c ≤ 'Z' then Char.ofNat (c.toNat + 32) else c

/-- Python `s.lower()` (restricted to the ASCII range, which is all the
code compares against). -/
def pyLower (l : List Char) : List Char :=
  l.map lowerChar

/-- Python `text.count <backtick><backtick><backtick>`: non-overlapping
occurrences of the three-backtick code-fence marker. -/
def countFence : List Char → Nat
  | '`' :: '`' :: '`' :: rest => countFence rest + 1
  | _ :: rest => countFence rest
  | [] => 0

/-- Python `text.count "**"`: non-overlapping occurrences of the
double-asterisk bold marker. -/
def countBold : List Char → Nat
  | '*' :: '*' :: rest => countBold rest + 1
  | _ :: rest => countBold rest
  | [] => 0

/-! ### `clean_markdown` (bot.py lines 279-299)

The outbound-text repair step: close an unbalanced code fence, then
unbalanced `**`, `_`, `*`, each test recomputed on the text so far, and
finally cap at 4000 characters (`text[:4000]`). -/

/-- First repair: `if text.count(fence) % 2 != 0: text += newline fence`. -/
def fixFence (t : List Char) : List Char :=
  if countFence t % 2 ≠ 0 then t ++ ['\n', '`', '`', '`'] else t

/-- Second repair: `if text.count(bold) % 2 != 0: text += bold`. -/
def fixBold (t : List Char) : List Char :=
  if countBold t % 2 ≠ 0 then t ++ ['*', '*'] else t

/-- Third repair: unbalanced underscore count. -/
def fixUnderscore (t : List Char) : List Char :=
  if t.count '_' % 2 ≠ 0 then t ++ ['_'] else t

/-- Fourth repair: unbalanced single-asterisk count. -/
def fixStar (t : List Char) : List Char :=
  if t.count '*' % 2 ≠ 0 then t ++ ['*'] else t

/-- `clean_markdown` from bot.py: empty (falsy) text is returned as is;
otherwise the four repairs run in order and the result is capped to
4000 characters. -/
def clean_markdown (t : List Char) : List Char :=
  if t = [] then t
  else (fixStar (fixUnderscore (fixBold (fixFence t)))).take 4000

/-! ### Conversation store: `AdvancedMemory` (bot.py lines 196-247)

The backing JSON document maps user-id strings to either a legacy bare
list of turns or an object with optional `history` / `settings` keys.
`get_user_data` migrates the legacy form and fills missing keys. -/

/-- One `{role, content}` conversation turn. -/
structure Turn where
  role : String
  content : String
deriving DecidableEq, Repr

/-- User settings, a mapping of option name to value. -/
abbrev SettingsMap := List (String × String)

/-- One user entry as persisted in the JSON memory file: either the
legacy bare list of turns, or an object whose `history` and `settings`
keys may each be present or absent. -/
inductive StoredVal where
  | list (l : List Turn)
  | obj (history : Option (List Turn)) (settings : Option SettingsMap)
deriving DecidableEq

/-- The in-memory shape `get_user_data` returns: both keys present. -/
structure UserData where
  history : List Turn
  settings : SettingsMap
deriving DecidableEq, Repr

/-- `AdvancedMemory.get_user_data`: look the user up (absent users give
the empty object, as `data.get(user_id, \x7b\x7d)` does), migrate a
legacy bare list to `{history: list, settings: {}}`, then fill in any
missing key with its default. -/
def get_user_data (data : String → Option StoredVal) (user_id : String) : UserData :=
  let user_data := (data user_id).getD (StoredVal.obj none none)
  let user_data :=
    match user_data with
    | StoredVal.list l => StoredVal.obj (some l) (some [])
    | x => x
  match user_data with
  | StoredVal.list l => ⟨l, []⟩
  | StoredVal.obj h s => ⟨h.getD [], s.getD []⟩

/-! ### Free-text chat turn: `handle_all_messages` (bot.py lines 1153-1207)

Two pure pieces carry the claims: the message list built for the chat
completion call (lines 1167-1171) and the post-reply history update
(lines 1190-1198). -/

/-- First line of the fixed persona instruction from bot.py; the long
literal continues in the source but only its identity as one fixed
string matters to the properties below. -/
def SYSTEM_PROMPT : String :=
  "You are Artovix, an elite AI assistant in 2026."

/-- The `messages` list sent to the chat completion call: the fixed
system instruction, then `history[-4:]`, then the new user message. -/
def chatContextMessages (history : List Turn) (userText : String) : List Turn :=
  ⟨"system", SYSTEM_PROMPT⟩ ::
    (history.drop (history.length - 4) ++ [⟨"user", userText⟩])

/-- The history update after a successful chat reply: append the user
turn and the assistant turn, then truncate to the last 20 entries when
the result exceeds 20 (`history = history[-20:]`). -/
def updatedHistory (history : List Turn) (userText reply : String) : List Turn :=
  let h := history ++ [⟨"user", userText⟩, ⟨"assistant", reply⟩]
  if h.length > 20 then h.drop (h.length - 20) else h

/-! ### Counter store: `Analytics` (bot.py lines 116-189)

Events are appended with a write-time timestamp; `get_current_metrics`
computes rolling aggregates with SQLite wall-clock windows.  Time is
modelled as seconds since the epoch; `datetime('now','-1 minute')`
becomes `now - 60` and `DATE(timestamp) = DATE('now')` becomes equality
of `ts / 86400`. -/

/-- One row of the `metrics` table. -/
structure MetricEvent where
  user_id : String
  ts : Nat
  tokens : Nat
  request_type : String
deriving DecidableEq, Repr

/-- The UTC day index of a timestamp, modelling SQLite `DATE`. -/
def dayOf (ts : Nat) : Nat := ts / 86400

/-- `timestamp > datetime('now', '-1 minute')`. -/
def inLastMinute (now : Nat) (e : MetricEvent) : Bool :=
  now - 60 < e.ts

/-- `DATE(timestamp) = DATE('now')`. -/
def onQueryDay (now : Nat) (e : MetricEvent) : Bool :=
  dayOf e.ts = dayOf now

/-- Distinct values in first-occurrence order, modelling the key set of
the `GROUP BY request_type` result. -/
def groupKeys : List String → List String
  | [] => []
  | t :: rest => t :: (groupKeys rest).filter (fun x => x ≠ t)

/-- The result record of `get_current_metrics`. -/
structure Metrics where
  RPM : Nat
  TPM : Nat
  RPD : Nat
  breakdown : List (String × Nat)
deriving DecidableEq, Repr

/-- `Analytics.get_current_metrics`: requests and token sum over the
last minute, request count over the current day, and a per-type count
over the current day (the breakdown query filters on
`DATE(timestamp) = DATE('now')`, not on the last minute). -/
def get_current_metrics (now : Nat) (store : List MetricEvent) : Metrics :=
  let lastMin := store.filter (inLastMinute now)
  let today := store.filter (onQueryDay now)
  { RPM := lastMin.length
    TPM := (lastMin.map (·.tokens)).sum
    RPD := today.length
    breakdown :=
      (groupKeys (today.map (·.request_type))).map
        (fun t => (t, (today.filter (fun e => e.request_type = t)).length)) }

/-! ### Image provider chain: `ImageGenerator.generate` (bot.py lines 318-451)

Each external HTTP call is an oracle outcome in an environment record:
either an exception or a response with status, content type and body.
`generate` returns the result together with the ordered log of external
calls it made, so absence of contact with a provider is provable. -/

/-- An HTTP response as the code observes it. -/
structure HttpResp where
  status : Nat
  contentType : String
  content : String
deriving DecidableEq, Repr

/-- Outcome of one `requests` call: an exception, or a response. -/
inductive HttpOutcome where
  | exn
  | resp (r : HttpResp)
deriving DecidableEq, Repr

/-- Outcome of one Groq chat-completion call. -/
inductive GroqChatOutcome where
  | ok (text : String)
  | exn
deriving DecidableEq, Repr

/-- One external call made by the bot, for the call log. -/
inductive ExtCall where
  | hfPrimary
  | hfRouter
  | pollinations
  | creative (style : String)
  | groqChat
deriving DecidableEq, Repr

/-- The fixed style set of the creative provider. -/
def styles : List String :=
  ["digital-art", "fantasy-art", "neon-punk", "isometric", "low-poly"]

/-- Environment of one `ImageGenerator.generate` run: the outcome each
provider would give if contacted, the index `random.choice` would pick
from `styles`, and the gateway credential state and chat outcome. -/
structure ImageEnv where
  hfPrimary : HttpOutcome
  hfRouter : HttpOutcome
  pollinations : HttpOutcome
  creative : HttpOutcome
  styleIdx : Nat
  groqConfigured : Bool
  groqChat : GroqChatOutcome
deriving DecidableEq, Repr

/-- The structured dict the textual fallback returns; `ptype` models the
`'type'` key, always `"text"`. -/
structure TextPayload where
  ptype : String
  prompt : String
  description : String
  emojis : String
  suggestion : String
deriving DecidableEq, Repr

/-- Result of `ImageGenerator.generate` when it is not `None`: raw image
bytes, or the structured textual payload. -/
inductive GenResult where
  | image (content : String)
  | payload (p : TextPayload)
deriving DecidableEq, Repr

/-- Provider 1, Hugging Face (lines 332-375): POST; success is status
200 with an image content type; status 410 triggers one retry against
the router URL, whose body is returned on any 200 without a
content-type check; anything else is a soft failure. -/
def tryHF (env : ImageEnv) : Option String × List ExtCall :=
  match env.hfPrimary with
  | .exn => (none, [.hfPrimary])
  | .resp r =>
    if r.status = 200 then
      if containsSeq "image".data r.contentType.data then (some r.content, [.hfPrimary])
      else (none, [.hfPrimary])
    else if r.status = 410 then
      match env.hfRouter with
      | .exn => (none, [.hfPrimary, .hfRouter])
      | .resp r2 =>
        if r2.status = 200 then (some r2.content, [.hfPrimary, .hfRouter])
        else (none, [.hfPrimary, .hfRouter])
    else (none, [.hfPrimary])

/-- Provider 2, Pollinations (lines 378-393): GET; success is status 200
with an image content type (checked case-insensitively). -/
def tryPollinations (env : ImageEnv) : Option String × List ExtCall :=
  match env.pollinations with
  | .exn => (none, [.pollinations])
  | .resp r =>
    if r.status = 200 ∧ containsSeq "image".data (pyLower r.contentType.data) then
      (some r.content, [.pollinations])
    else (none, [.pollinations])

/-- Provider 3, creative style (lines 396-410): GET with a random style
query parameter; the body is returned on any status-200 response, with
no content-type check. -/
def tryCreative (env : ImageEnv) : Option String × List ExtCall :=
  let style := styles.getD (env.styleIdx % 5) "digital-art"
  match env.creative with
  | .exn => (none, [.creative style])
  | .resp r =>
    if r.status = 200 then (some r.content, [.creative style])
    else (none, [.creative style])

/-- `ImageGenerator.generate`: blank prompts return `None` immediately;
otherwise the providers enabled by `model_type` run in order, the first
image short-circuits, and in `auto` mode exhausting all providers falls
back to a Groq textual description — a structured
backend-not-configured payload when no credential is set, `None` when
the Groq call itself raises.  A specific mode that exhausts its single
provider returns `None`. -/
def generate (env : ImageEnv) (prompt : String) (model_type : String) :
    Option GenResult × List ExtCall :=
  let clean_prompt := pyStrip prompt.data
  if clean_prompt.isEmpty then (none, [])
  else
    let s1 := if model_type = "auto" ∨ model_type = "flux" then tryHF env else (none, [])
    match s1.1 with
    | some content => (some (.image content), s1.2)
    | none =>
      let s2 :=
        if model_type = "auto" ∨ model_type = "pollinations" then tryPollinations env
        else (none, [])
      match s2.1 with
      | some content => (some (.image content), s1.2 ++ s2.2)
      | none =>
        let s3 :=
          if model_type = "auto" ∨ model_type = "creative" then tryCreative env
          else (none, [])
        match s3.1 with
        | some content => (some (.image content), s1.2 ++ s2.2 ++ s3.2)
        | none =>
          if model_type = "auto" then
            if env.groqConfigured = false then
              (some (.payload
                ⟨"text", ⟨clean_prompt⟩,
                  "AI backend not configured. Set GROQ_API_KEY in .env to enable detailed descriptions.",
                  "⚠️",
                  "Add GROQ_API_KEY to .env and restart the bot."⟩),
               s1.2 ++ s2.2 ++ s3.2)
            else
              match env.groqChat with
              | .ok text =>
                (some (.payload
                  ⟨"text", ⟨clean_prompt⟩, text, "🎨✨",
                    "Try a different prompt or simpler description."⟩),
                 s1.2 ++ s2.2 ++ s3.2 ++ [.groqChat])
              | .exn => (none, s1.2 ++ s2.2 ++ s3.2 ++ [.groqChat])
          else (none, s1.2 ++ s2.2 ++ s3.2)

/-! ### Argument-taking command handlers (bot.py lines 618-696, 701-789,
915-999)

`handle_search`, `handle_code` and `process_image_generation` all start
with `if message.text and len(message.text.split()) > 1`; without an
argument they send usage help and return before any external call.
Outbound messages are modelled as tags; the call log records contacts
with external services. -/

/-- The kind of reply a command handler sends. -/
inductive SentTag where
  | usageHelp
  | backendMissing
  | resultMsg
  | apologyMsg
  | photoMsg
  | conceptMsg
  | failureMsg
deriving DecidableEq, Repr

/-- Observable outcome of a Groq-backed text command handler. -/
structure TextCmdOut where
  sent : SentTag
  calledGroq : Bool
  metricLogged : Bool
deriving DecidableEq, Repr

/-- Observable outcome of an image-generation command handler. -/
structure ImgCmdOut where
  sent : SentTag
  extCalls : List ExtCall
  metricLogged : Bool
deriving DecidableEq, Repr

/-- The guard `message.text and len(message.text.split()) > 1`: a
missing or empty (falsy) text, or a text of at most one word, has no
argument payload. -/
def hasArg (text : Option String) : Bool :=
  match text with
  | none => false
  | some t => (if t = "" then false else true) && decide ((pySplit t.data).length > 1)

/-- Space-joined concatenation, modelling `' '.join(words)`. -/
def joinSpace : List (List Char) → List Char
  | [] => []
  | [w] => w
  | w :: ws => w ++ ' ' :: joinSpace ws

/-- `' '.join(message.text.split()[1:])`: the argument payload after the
command word. -/
def argPayload (t : String) : String :=
  ⟨joinSpace ((pySplit t.data).drop 1)⟩

/-- `handle_search`: no argument shows usage help and returns; with an
argument, a missing credential yields the backend-missing message with
no call and no metric; otherwise the Groq call is made and either the
result or the apology is sent, and a metric is logged either way. -/
def handle_search (text : Option String) (groqConfigured : Bool)
    (chat : GroqChatOutcome) : TextCmdOut :=
  if hasArg text then
    if groqConfigured = false then ⟨.backendMissing, false, false⟩
    else
      match chat with
      | .ok _ => ⟨.resultMsg, true, true⟩
      | .exn => ⟨.apologyMsg, true, true⟩
  else ⟨.usageHelp, false, false⟩

/-- `handle_code`: identical control shape to `handle_search` (only the
prompt text differs). -/
def handle_code (text : Option String) (groqConfigured : Bool)
    (chat : GroqChatOutcome) : TextCmdOut :=
  if hasArg text then
    if groqConfigured = false then ⟨.backendMissing, false, false⟩
    else
      match chat with
      | .ok _ => ⟨.resultMsg, true, true⟩
      | .exn => ⟨.apologyMsg, true, true⟩
  else ⟨.usageHelp, false, false⟩

/-- `process_image_generation`: no argument shows usage help (reading
only the local settings store) and returns; with an argument it runs
`ImageGenerator.generate` with the explicit mode, or the user's stored
`image_model` setting, or `"auto"`, then sends a photo, the structured
concept text, or the failure message, and logs a metric. -/
def process_image_generation (text : Option String) (model_type : Option String)
    (userImageModel : Option String) (env : ImageEnv) : ImgCmdOut :=
  if hasArg text then
    match text with
    | none => ⟨.usageHelp, [], false⟩
    | some t =>
      let prompt := argPayload t
      let active_model := model_type.getD (userImageModel.getD "auto")
      let res := generate env prompt active_model
      match res.1 with
      | some (.payload _) => ⟨.conceptMsg, res.2, true⟩
      | some (.image _) => ⟨.photoMsg, res.2, true⟩
      | none => ⟨.failureMsg, res.2, true⟩
  else ⟨.usageHelp, [], false⟩

/-! ### Voice handler: `handle_voice` (bot.py lines 1054-1095)

The handler downloads the clip to a transient file, transcribes it, and
removes the file.  The removal sits on the straight-line success path
only: the early return when no credential is configured and the
exception path both skip `os.remove`.  The model tracks whether the
transient file was written and whether it was removed. -/

/-- Outcome of the Whisper transcription call. -/
inductive TranscriptionOutcome where
  | ok (text : String)
  | exn
deriving DecidableEq, Repr

/-- Environment of one voice event: whether the Telegram download
succeeds, whether the Groq client is configured, and what the
transcription call would return. -/
structure VoiceEnv where
  downloadOk : Bool
  groqConfigured : Bool
  transcription : TranscriptionOutcome
deriving DecidableEq, Repr

/-- The reply the voice handler sends. -/
inductive VoiceReply where
  | failureMsg
  | backendMissing
  | unintelligible
  | transcribed (t : String)
deriving DecidableEq, Repr

/-- Observable outcome of `handle_voice`: transient-file state at exit
plus the reply sent. -/
structure VoiceResult where
  fileWritten : Bool
  fileRemoved : Bool
  reply : VoiceReply
deriving DecidableEq, Repr

/-- `handle_voice`: a failed download raises before the file is written;
after the file is written, the missing-credential check returns early
without removing it, a raising transcription reaches the except block
without removing it, and only a completed transcription runs
`os.remove` before the empty-transcript check and the re-dispatch. -/
def handle_voice (env : VoiceEnv) : VoiceResult :=
  if env.downloadOk = false then ⟨false, false, .failureMsg⟩
  else if env.groqConfigured = false then ⟨true, false, .backendMissing⟩
  else
    match env.transcription with
    | .exn => ⟨true, false, .failureMsg⟩
    | .ok t =>
      if (pyStrip t.data).length < 1 then ⟨true, true, .unintelligible⟩
      else ⟨true, true, .transcribed t⟩

/-! ### Concrete instances used in witnesses and counterexamples -/

/-- A store holding one legacy bare-list profile. -/
def legacyStore : String → Option StoredVal :=
  fun s => if s = "7" then some (.list [⟨"user", "hi"⟩]) else none

/-- Environment where every provider raises and the configured Groq
fallback call raises too. -/
def envAllRaise : ImageEnv :=
  ⟨.exn, .exn, .exn, .exn, 0, true, .exn⟩

/-- Environment where every provider raises and no Groq credential is
configured. -/
def envNoGroq : ImageEnv :=
  ⟨.exn, .exn, .exn, .exn, 0, false, .exn⟩

/-- Environment whose creative provider answers 200 with an HTML body. -/
def envCreativeHtml : ImageEnv :=
  ⟨.exn, .exn, .exn, .resp ⟨200, "text/html", "oops"⟩, 0, true, .exn⟩

/-- Environment whose pollinations provider answers 200 with an HTML
body. -/
def envPollHtml : ImageEnv :=
  ⟨.exn, .exn, .resp ⟨200, "text/html", "oops"⟩, .exn, 0, true, .exn⟩

/-- A metric event recorded five seconds before the first UTC midnight
(timestamp 86395, still on day 0). -/
def midnightEvent : MetricEvent :=
  ⟨"u", 86395, 5, "chat"⟩

/-! ## Helper lemmas -/

/-- `fixBold` only ever appends backtick-free characters. -/
theorem fixBold_append (u : List Char) :
    ∃ s, fixBold u = u ++ s ∧ ∀ c ∈ s, c ≠ '`' := by
  unfold fixBold
  split
  · exact ⟨['*', '*'], rfl, by decide⟩
  · exact ⟨[], by simp, by simp⟩

/-- `fixUnderscore` only ever appends backtick-free characters. -/
theorem fixUnderscore_append (u : List Char) :
    ∃ s, fixUnderscore u = u ++ s ∧ ∀ c ∈ s, c ≠ '`' := by
  unfold fixUnderscore
  split
  · exact ⟨['_'], rfl, by decide⟩
  · exact ⟨[], by simp, by simp⟩

/-- `fixStar` only ever appends backtick-free characters. -/
theorem fixStar_append (u : List Char) :
    ∃ s, fixStar u = u ++ s ∧ ∀ c ∈ s, c ≠ '`' := by
  unfold fixStar
  split
  · exact ⟨['*'], rfl, by decide⟩
  · exact ⟨[], by simp, by simp⟩

/-- The three repairs after the fence repair only append backtick-free
characters. -/
theorem repairs_append (u : List Char) :
    ∃ s, fixStar (fixUnderscore (fixBold u)) = u ++ s ∧ ∀ c ∈ s, c ≠ '`' := by
  obtain ⟨s1, h1, n1⟩ := fixBold_append u
  obtain ⟨s2, h2, n2⟩ := fixUnderscore_append (fixBold u)
  obtain ⟨s3, h3, n3⟩ := fixStar_append (fixUnderscore (fixBold u))
  refine ⟨s1 ++ s2 ++ s3, ?_, ?_⟩
  · rw [h3, h2, h1]
    simp [List.append_assoc]
  · intro c hc
    rcases List.mem_append.mp hc with hc' | hc'
    · rcases List.mem_append.mp hc' with hc'' | hc''
      · exact n1 c hc''
      · exact n2 c hc''
    · exact n3 c hc'

/-- `groupKeys` of a nonempty constant list is the singleton. -/
theorem groupKeys_const (a : String) :
    ∀ l : List String, (∀ x ∈ l, x = a) → groupKeys l = [] ∨ groupKeys l = [a] := by
  intro l
  induction l with
  | nil => intro _; exact Or.inl rfl
  | cons t rest ih =>
    intro h
    have ht : t = a := h t (List.mem_cons_self t rest)
    have hrest : ∀ x ∈ rest, x = a := fun x hx => h x (List.mem_cons_of_mem t hx)
    right
    rcases ih hrest with hk | hk <;>
      simp [groupKeys, hk, ht]

/-! ## Claim theorems -/

/-- C3: for every user and every chat turn, after the turn is processed
and persisted the history has at most 20 entries, regardless of how
many entries it held before the turn. -/
theorem updatedHistory_le_twenty (history : List Turn) (userText reply : String) :
    (updatedHistory history userText reply).length ≤ 20 := by
  simp only [updatedHistory]
  split
  · rw [List.length_drop]
    omega
  · omega

/-- C6: a user identifier never seen before yields the default profile
with empty history and empty settings, and a profile persisted in the
legacy bare-list form is migrated to that list with empty settings. -/
theorem get_user_data_default_and_legacy (data : String → Option StoredVal)
    (user_id : String) (l : List Turn) :
    (data user_id = none → get_user_data data user_id = ⟨[], []⟩) ∧
    (data user_id = some (.list l) → get_user_data data user_id = ⟨l, []⟩) := by
  constructor
  · intro h
    simp [get_user_data, h]
  · intro h
    simp [get_user_data, h]

/-- Witness for C6 on a concrete store: a fresh user and a legacy-list
user. -/
theorem get_user_data_default_and_legacy_witness :
    get_user_data legacyStore "9" = ⟨[], []⟩ ∧
    get_user_data legacyStore "7" = ⟨[⟨"user", "hi"⟩], []⟩ :=
  ⟨(get_user_data_default_and_legacy legacyStore "9" []).1 (by decide),
   (get_user_data_default_and_legacy legacyStore "7" [⟨"user", "hi"⟩]).2 (by decide)⟩

/-- C7: the message list sent to the chat call is exactly the fixed
system instruction, then the most recent at-most-4 history entries (a
suffix of the history of length `min 4 len`), then the new user
message. -/
theorem chatContextMessages_shape (history : List Turn) (userText : String) :
    ∃ ctx : List Turn,
      chatContextMessages history userText =
        ⟨"system", SYSTEM_PROMPT⟩ :: (ctx ++ [⟨"user", userText⟩]) ∧
      ctx.length = min 4 history.length ∧ List.IsSuffix ctx history := by
  refine ⟨history.drop (history.length - 4), rfl, ?_, List.drop_suffix _ _⟩
  rw [List.length_drop]
  omega

/-- C2 (code bug): a voice event that writes its transient file and then
hits a raising transcription call, or the missing-credential early
return, exits with the file still on disk; only the completed
transcription path removes it. -/
theorem handle_voice_temp_file_leak :
    (handle_voice ⟨true, true, .exn⟩).fileWritten = true ∧
    (handle_voice ⟨true, true, .exn⟩).fileRemoved = false ∧
    (handle_voice ⟨true, false, .ok "hello"⟩).fileWritten = true ∧
    (handle_voice ⟨true, false, .ok "hello"⟩).fileRemoved = false ∧
    (handle_voice ⟨true, true, .ok "hello"⟩).fileRemoved = true := by
  decide

/-- C10: in every mode, a prompt that strips to nothing makes `generate`
return `None` immediately, contacting no provider and producing no
fallback payload. -/
theorem generate_blank_prompt_no_calls (env : ImageEnv) (prompt model_type : String)
    (h : pyStrip prompt.data = []) :
    generate env prompt model_type = (none, []) := by
  simp [generate, h]

/-- Witness for C10: a whitespace-only prompt in a fully failing
environment. -/
theorem generate_blank_prompt_no_calls_witness :
    pyStrip "   ".data = [] ∧ generate envAllRaise "   " "flux" = (none, []) :=
  ⟨by decide, generate_blank_prompt_no_calls envAllRaise "   " "flux" (by decide)⟩

/-- C9: for every outbound text with an odd number of code-fence
markers, `clean_markdown` appends the closing fence directly after the
text, anything appended later is backtick-free, the 4000-character cap
is applied after those repairs, and the final output never exceeds
4000 characters. -/
theorem clean_markdown_closes_fence_before_cap (t : List Char)
    (hodd : countFence t % 2 = 1) :
    (clean_markdown t).length ≤ 4000 ∧
    ∃ s : List Char,
      clean_markdown t = ((t ++ ['\n', '`', '`', '`']) ++ s).take 4000 ∧
        ∀ c ∈ s, c ≠ '`' := by
  have ht : t ≠ [] := by
    intro h
    subst h
    revert hodd
    decide
  have hfix : fixFence t = t ++ ['\n', '`', '`', '`'] := by
    unfold fixFence
    rw [if_pos]
    omega
  obtain ⟨s, hs, hns⟩ := repairs_append (t ++ ['\n', '`', '`', '`'])
  have hcm : clean_markdown t = ((t ++ ['\n', '`', '`', '`']) ++ s).take 4000 := by
    unfold clean_markdown
    rw [if_neg ht, hfix, hs]
  refine ⟨?_, s, hcm, hns⟩
  rw [hcm, List.length_take]
  omega

/-- Witness for C9 on a concrete unbalanced text. -/
theorem clean_markdown_closes_fence_before_cap_witness :
    countFence "```abc".data % 2 = 1 ∧
    ((clean_markdown "```abc".data).length ≤ 4000 ∧
      ∃ s : List Char,
        clean_markdown "```abc".data =
          (("```abc".data ++ ['\n', '`', '`', '`']) ++ s).take 4000 ∧
          ∀ c ∈ s, c ≠ '`') :=
  ⟨by decide, clean_markdown_closes_fence_before_cap "```abc".data (by decide)⟩

/-- `groupKeys` is empty only on the empty list. -/
theorem groupKeys_eq_nil {l : List String} (h : groupKeys l = []) : l = [] := by
  cases l with
  | nil => rfl
  | cons t rest => simp [groupKeys] at h

/-- C5 (amended): after recording N ≥ 1 events of type `"chat"` within
the last minute, all on the same UTC day as the query, and no events
of any other type, the breakdown is exactly `{"chat": N}`. -/
theorem breakdown_all_chat_same_day (now N : Nat) (store : List MetricEvent)
    (hty : ∀ e ∈ store, e.request_type = "chat")
    (hmin : ∀ e ∈ store, inLastMinute now e = true)
    (hday : ∀ e ∈ store, onQueryDay now e = true)
    (hlen : store.length = N) (hN : 1 ≤ N) :
    (get_current_metrics now store).breakdown = [("chat", N)] := by
  have htoday : store.filter (onQueryDay now) = store :=
    List.filter_eq_self.mpr (by intro e he; simpa using hday e he)
  have hmapchat : ∀ x ∈ store.map (·.request_type), x = "chat" := by
    intro x hx
    obtain ⟨e, he, rfl⟩ := List.mem_map.mp hx
    exact hty e he
  have hkeys : groupKeys (store.map (·.request_type)) = ["chat"] := by
    rcases groupKeys_const "chat" _ hmapchat with hk | hk
    · exfalso
      have : store.map (·.request_type) = [] := groupKeys_eq_nil hk
      have : store = [] := List.map_eq_nil_iff.mp this
      subst this
      simp at hlen
      omega
    · exact hk
  have hfilter : store.filter (fun e => e.request_type = "chat") = store :=
    List.filter_eq_self.mpr (by intro e he; simpa using hty e he)
  simp only [get_current_metrics, htoday, hkeys, hfilter, List.map_cons, List.map_nil, hlen]

/-- Witness for C5 (amended) on a concrete one-event store. -/
theorem breakdown_all_chat_same_day_witness :
    (get_current_metrics 100 [⟨"u", 90, 5, "chat"⟩]).breakdown = [("chat", 1)] :=
  breakdown_all_chat_same_day 100 1 [⟨"u", 90, 5, "chat"⟩]
    (by decide) (by decide) (by decide) (by decide) (by decide)

/-- Counterexample to C5 as stated: one `"chat"` event recorded within
the last minute but five seconds before UTC midnight, queried ten
seconds after midnight, is inside the rolling minute yet absent from
the per-day breakdown, which is `{}` rather than `{"chat": 1}`. -/
theorem breakdown_misses_previous_day_event :
    inLastMinute 86410 midnightEvent = true ∧
    midnightEvent.request_type = "chat" ∧
    (get_current_metrics 86410 [midnightEvent]).breakdown = [] ∧
    (get_current_metrics 86410 [midnightEvent]).breakdown ≠ [("chat", 1)] := by
  decide

/-- C1 (amended): in `auto` mode with a non-blank prompt, when all three
providers fail and the Groq fallback does not itself raise, `generate`
returns a structured textual payload: the backend-not-configured payload
when no credential is set, the gateway description otherwise. -/
theorem generate_auto_all_providers_fail_payload (env : ImageEnv) (prompt : String)
    (hp : pyStrip prompt.data ≠ [])
    (h1 : (tryHF env).1 = none)
    (h2 : (tryPollinations env).1 = none)
    (h3 : (tryCreative env).1 = none)
    (hg : env.groqConfigured = true → env.groqChat ≠ .exn) :
    ∃ p : TextPayload,
      (generate env prompt "auto").1 = some (.payload p) ∧
      p.ptype = "text" ∧
      (env.groqConfigured = false →
        p.description =
          "AI backend not configured. Set GROQ_API_KEY in .env to enable detailed descriptions.") ∧
      (∀ txt, env.groqConfigured = true → env.groqChat = .ok txt →
        p.description = txt) := by
  have hne : (pyStrip prompt.data).isEmpty = false := by
    cases hps : pyStrip prompt.data with
    | nil => exact absurd hps hp
    | cons a l => rfl
  cases hc : env.groqConfigured with
  | false =>
    refine ⟨⟨"text", ⟨pyStrip prompt.data⟩,
      "AI backend not configured. Set GROQ_API_KEY in .env to enable detailed descriptions.",
      "⚠️", "Add GROQ_API_KEY to .env and restart the bot."⟩, ?_, rfl, fun _ => rfl, ?_⟩
    · simp [generate, hne, h1, h2, h3, hc]
    · intro txt htrue
      exact absurd htrue (by decide)
  | true =>
    cases hchat : env.groqChat with
    | exn => exact absurd hchat (hg hc)
    | ok txt =>
      refine ⟨⟨"text", ⟨pyStrip prompt.data⟩, txt, "🎨✨",
        "Try a different prompt or simpler description."⟩, ?_, rfl, ?_, ?_⟩
      · simp [generate, hne, h1, h2, h3, hc, hchat]
      · intro hfalse
        exact absurd hfalse (by decide)
      · intro txt2 _ hok
        cases hok
        rfl

/-- Witness for C1 (amended): all providers raise and no credential is
configured. -/
theorem generate_auto_all_providers_fail_payload_witness :
    ∃ p : TextPayload,
      (generate envNoGroq "a cat" "auto").1 = some (.payload p) ∧
      p.ptype = "text" ∧
      (envNoGroq.groqConfigured = false →
        p.description =
          "AI backend not configured. Set GROQ_API_KEY in .env to enable detailed descriptions.") ∧
      (∀ txt, envNoGroq.groqConfigured = true → envNoGroq.groqChat = .ok txt →
        p.description = txt) :=
  generate_auto_all_providers_fail_payload envNoGroq "a cat"
    (by decide) (by decide) (by decide) (by decide) (by decide)

/-- Counterexample to C1 as stated: with all three providers failing and
the configured Groq fallback call raising, `generate` in `auto` mode
returns raw `None` with no payload. -/
theorem generate_auto_groq_raise_returns_none :
    (tryHF envAllRaise).1 = none ∧ (tryPollinations envAllRaise).1 = none ∧
    (tryCreative envAllRaise).1 = none ∧ pyStrip "a cat".data ≠ [] ∧
    (generate envAllRaise "a cat" "auto").1 = none := by
  decide

/-- C4 (amended): the tertiary/creative provider's success criterion is
HTTP 200 alone — the body of any status-200 response is returned as the
image, with no content-type check; any other status is a soft failure. -/
theorem creative_success_status_only (env : ImageEnv) (prompt : String) (r : HttpResp)
    (hp : pyStrip prompt.data ≠ [])
    (hc : env.creative = .resp r) :
    (generate env prompt "creative").1 =
      if r.status = 200 then some (.image r.content) else none := by
  have hne : (pyStrip prompt.data).isEmpty = false := by
    cases hps : pyStrip prompt.data with
    | nil => exact absurd hps hp
    | cons a l => rfl
  by_cases hs : r.status = 200
  · simp [generate, tryCreative, hne, hc, hs]
  · simp [generate, tryCreative, hne, hc, hs]

/-- Witness for C4 (amended) on a concrete 200-with-HTML response. -/
theorem creative_success_status_only_witness :
    (generate envCreativeHtml "a cat" "creative").1 =
      if (HttpResp.mk 200 "text/html" "oops").status = 200 then
        some (.image (HttpResp.mk 200 "text/html" "oops").content)
      else none :=
  creative_success_status_only envCreativeHtml "a cat" ⟨200, "text/html", "oops"⟩
    (by decide) rfl

/-- Counterexample to C4 as stated: a 200 response with content type
`text/html` is accepted by the creative provider (its body is returned
as the image) while the identical response is a soft failure for the
secondary provider — the success criteria differ. -/
theorem creative_ignores_content_type :
    containsSeq "image".data (pyLower "text/html".data) = false ∧
    (generate envCreativeHtml "a cat" "creative").1 = some (.image "oops") ∧
    (generate envPollHtml "a cat" "pollinations").1 = none := by
  decide

/-- C8: an argument-taking command received with no argument payload
makes `handle_search`, `handle_code` and `process_image_generation`
reply with usage help, call no external service, and log no metric. -/
theorem no_arg_command_help_no_calls (text : Option String) (gc : Bool)
    (chat : GroqChatOutcome) (mt us : Option String) (env : ImageEnv)
    (h : hasArg text = false) :
    handle_search text gc chat = ⟨.usageHelp, false, false⟩ ∧
    handle_code text gc chat = ⟨.usageHelp, false, false⟩ ∧
    process_image_generation text mt us env = ⟨.usageHelp, [], false⟩ := by
  refine ⟨?_, ?_, ?_⟩ <;>
    simp [handle_search, handle_code, process_image_generation, h]

/-- Witness for C8: the bare command `/search` with a live gateway and a
fully configured image environment. -/
theorem no_arg_command_help_no_calls_witness :
    hasArg (some "/search") = false ∧
    (handle_search (some "/search") true (.ok "x") = ⟨.usageHelp, false, false⟩ ∧
     handle_code (some "/search") true (.ok "x") = ⟨.usageHelp, false, false⟩ ∧
     process_image_generation (some "/search") none none envAllRaise =
       ⟨.usageHelp, [], false⟩) :=
  ⟨by decide,
   no_arg_command_help_no_calls (some "/search") true (.ok "x") none none envAllRaise
     (by decide)⟩

end Artovix
